import Mathlib

/-!
Shallow embedding of the Rememory server (src/server/app.py,
src/server/gemini_processor.py, src/server/config.py) and proofs about it.

Modelling conventions:
* Python strings are Lean `String`s; socket payload strings that the code
  splits character-wise are `List Char`.
* JSON numbers carried in GPS payloads are modelled as `Int` (no claim
  depends on float arithmetic); a missing/None field is `Option.none`.
* Timestamps (`datetime.now()`) are an abstract `Nat` supplied by the caller;
  `isoformat`/`strftime` renderings are modelled by `toString`.
* A Python exception is an `Except String` error; a `try/except` block is a
  `match` on the fallible part, with mutations that happened before the
  fallible statement threaded explicitly so that they survive the handler.
* `base64.b64decode` is standard-library code, not repository code, so it is
  an abstract parameter `b64 : List Char → Option (List Nat)`; `none` models
  `binascii.Error`.
* File writes and socket emits are recorded as lists of events returned by
  each handler.
-/

namespace Rememory

/-- A GPS fix as stored in `current_session['gps_data']` (app.py:139-147):
server-assigned timestamp plus the six client-supplied nullable fields. -/
structure GpsFix where
  timestamp : Nat
  latitude : Option Int
  longitude : Option Int
  accuracy : Option Int
  altitude : Option Int
  heading : Option Int
  speed : Option Int
deriving DecidableEq, Repr

/-- Metadata appended to `current_session['audio_chunks']` (app.py:177-181). -/
structure AudioChunkMeta where
  timestamp : Nat
  filename : String
  size : Nat
deriving DecidableEq, Repr

/-- Metadata appended to `current_session['photos']` (app.py:209-214). -/
structure PhotoMeta where
  timestamp : Nat
  filename : String
  path : String
  size : Nat
deriving DecidableEq, Repr

/-- The process-global `current_session` dict (app.py:37-43). -/
structure Session where
  gps_data : List GpsFix
  audio_chunks : List AudioChunkMeta
  photos : List PhotoMeta
  current_state : String
  last_update : Nat
deriving DecidableEq, Repr

/-- The initial value of `current_session` (app.py:37-43); the initial
`last_update` timestamp is modelled as 0. -/
def initial_session : Session :=
  { gps_data := []
    audio_chunks := []
    photos := []
    current_state := "Initializing Rememory..."
    last_update := 0 }

/-- Python's `l[-n:]`: the last `n` elements (all of `l` when `l` is shorter). -/
def lastN (n : Nat) (l : List α) : List α := l.drop (l.length - n)

/-- The slice-and-truncate pattern `if len(l) > cap: l = l[-cap:]`
(app.py:152-153 with cap 100, gemini_processor.py:68-69 with cap 10). -/
def trimTo (cap : Nat) (l : List α) : List α :=
  if cap < l.length then lastN cap l else l

/-- The payload of a `gps_update` event: `data.get(...)` yields `None` for a
missing key, hence every field is optional (app.py:141-146). -/
structure GpsPayload where
  latitude : Option Int
  longitude : Option Int
  accuracy : Option Int
  altitude : Option Int
  heading : Option Int
  speed : Option Int
deriving DecidableEq, Repr

/-- The `gps_entry` dict built at app.py:139-147. -/
def mkGpsEntry (d : GpsPayload) (ts : Nat) : GpsFix :=
  { timestamp := ts
    latitude := d.latitude
    longitude := d.longitude
    accuracy := d.accuracy
    altitude := d.altitude
    heading := d.heading
    speed := d.speed }

/-- Python's `f"{v:.6f}"` on an optional numeric: formatting `None` raises
`TypeError`; a number renders in fixed-point (values are modelled as `Int`,
so the rendering is `toString v ++ ".000000"`). -/
def pyF6 (v : Option Int) : Except String String :=
  match v with
  | none => Except.error "unsupported format string passed to NoneType.__format__"
  | some x => Except.ok (toString x ++ ".000000")

/-- The `print(f"[GPS Update] {lat:.6f}, {lng:.6f}")` statement
(app.py:155); raises when latitude or longitude is `None`. -/
def gpsPrintLine (e : GpsFix) : Except String String := do
  let la ← pyF6 e.latitude
  let lo ← pyF6 e.longitude
  Except.ok ("[GPS Update] " ++ la ++ ", " ++ lo)

/-- `handle_gps_update` (app.py:135-158): builds the entry, appends it to
`gps_data` keeping the last 100, then prints; any exception from the print is
caught and logged, and the mutation made before it is not rolled back.
Returns the new session and the console lines produced. -/
def handle_gps_update (d : GpsPayload) (ts : Nat) (s : Session) :
    Session × List String :=
  let entry := mkGpsEntry d ts
  let s' := { s with gps_data := trimTo 100 (s.gps_data ++ [entry]) }
  match gpsPrintLine entry with
  | Except.ok line => (s', [line])
  | Except.error e => (s', ["[Error] GPS update failed: " ++ e])

/-- Folding a sequence of `gps_update` events over the initial session. -/
def runGpsUpdates (evts : List (GpsPayload × Nat)) : Session :=
  evts.foldl (fun s e => (handle_gps_update e.1 e.2 s).1) initial_session

theorem lastN_of_le {α : Type} {n : Nat} {l : List α} (h : l.length ≤ n) :
    lastN n l = l := by
  unfold lastN
  have h0 : l.length - n = 0 := by omega
  rw [h0, List.drop_zero]

theorem length_lastN {α : Type} (n : Nat) (l : List α) :
    (lastN n l).length = min n l.length := by
  unfold lastN
  rw [List.length_drop]
  omega

theorem trim_append {α : Type} (cap : Nat) (hcap : 0 < cap)
    (ys : List α) (x : α) :
    trimTo cap (lastN cap ys ++ [x]) = lastN cap (ys ++ [x]) := by
  by_cases h : ys.length + 1 ≤ cap
  · have hlast : lastN cap ys = ys := lastN_of_le (by omega)
    rw [hlast]
    have hle : (ys ++ [x]).length ≤ cap := by
      rw [List.length_append]; simpa using h
    rw [lastN_of_le hle]
    unfold trimTo
    rw [if_neg (by omega)]
  · have hyl : cap ≤ ys.length := by omega
    have hd : (lastN cap ys).length = cap := by
      rw [length_lastN]; omega
    have hpos : cap < (lastN cap ys ++ [x]).length := by
      rw [List.length_append, hd]; simp
    unfold trimTo
    rw [if_pos hpos]
    have e1 : lastN cap (lastN cap ys ++ [x]) =
        List.drop 1 (lastN cap ys) ++ [x] := by
      show List.drop ((lastN cap ys ++ [x]).length - cap)
        (lastN cap ys ++ [x]) = _
      rw [List.length_append, hd]
      have h1 : cap + [x].length - cap = 1 := by
        simp only [List.length_cons, List.length_nil]; omega
      rw [h1]
      exact List.drop_append_of_le_length (by rw [hd]; omega)
    have e2 : List.drop 1 (lastN cap ys) =
        List.drop (ys.length - cap + 1) ys := by
      show List.drop 1 (List.drop (ys.length - cap) ys) = _
      rw [List.drop_drop]
    have e3 : lastN cap (ys ++ [x]) =
        List.drop (ys.length - cap + 1) ys ++ [x] := by
      show List.drop ((ys ++ [x]).length - cap) (ys ++ [x]) = _
      rw [List.length_append]
      have h4 : ys.length + [x].length - cap = ys.length - cap + 1 := by
        simp only [List.length_cons, List.length_nil]; omega
      rw [h4]
      exact List.drop_append_of_le_length (by omega)
    rw [e1, e2, e3]

theorem foldl_trim_eq_lastN {α : Type} (cap : Nat) (hcap : 0 < cap)
    (xs ys acc : List α) (hacc : acc = lastN cap ys) :
    xs.foldl (fun h x => trimTo cap (h ++ [x])) acc = lastN cap (ys ++ xs) := by
  induction xs generalizing ys acc with
  | nil => simpa using hacc
  | cons x xs ih =>
    rw [List.foldl_cons]
    have hstep : trimTo cap (acc ++ [x]) = lastN cap (ys ++ [x]) := by
      rw [hacc]; exact trim_append cap hcap ys x
    have := ih (ys ++ [x]) _ hstep
    rw [this, List.append_assoc]
    rfl

/-- The session produced by `handle_gps_update` always carries the appended,
trimmed gps list, whichever branch the print takes. -/
theorem handle_gps_update_session (d : GpsPayload) (ts : Nat) (s : Session) :
    (handle_gps_update d ts s).1 =
      { s with gps_data := trimTo 100 (s.gps_data ++ [mkGpsEntry d ts]) } := by
  unfold handle_gps_update
  cases h : gpsPrintLine (mkGpsEntry d ts) <;> simp [h]

theorem runGpsUpdates_gps (evts : List (GpsPayload × Nat)) :
    (runGpsUpdates evts).gps_data =
      lastN 100 (evts.map (fun e => mkGpsEntry e.1 e.2)) := by
  unfold runGpsUpdates
  have key : ∀ (l : List (GpsPayload × Nat)) (s : Session),
      (l.foldl (fun s e => (handle_gps_update e.1 e.2 s).1) s).gps_data =
      (l.map (fun e => mkGpsEntry e.1 e.2)).foldl
        (fun h x => trimTo 100 (h ++ [x])) s.gps_data := by
    intro l
    induction l with
    | nil => intro s; rfl
    | cons e l ih =>
      intro s
      rw [List.foldl_cons, List.map_cons, List.foldl_cons, ih,
        handle_gps_update_session]
  rw [key]
  have := foldl_trim_eq_lastN 100 (by omega)
    (evts.map (fun e => mkGpsEntry e.1 e.2)) [] initial_session.gps_data rfl
  simpa using this

/-- C2: after any sequence of `gps_update` events, `gpsHistory` holds at most
100 fixes, and its contents are exactly the most recently received fixes
(up to 100) in receipt order, the oldest being evicted first on overflow. -/
theorem gps_history_capped_and_recent (evts : List (GpsPayload × Nat)) :
    (runGpsUpdates evts).gps_data.length ≤ 100 ∧
    (runGpsUpdates evts).gps_data =
      lastN 100 (evts.map (fun e => mkGpsEntry e.1 e.2)) := by
  refine ⟨?_, runGpsUpdates_gps evts⟩
  rw [runGpsUpdates_gps evts, length_lastN]
  omega

/-- The `data_snapshot` dict handed to the summarizer (app.py:59-63):
copies of the gps and photo lists plus the audio-chunk count. -/
structure Snapshot where
  gps_data : List GpsFix
  photos : List PhotoMeta
  audio_chunks : Nat
deriving DecidableEq, Repr

/-- One entry of `GeminiProcessor.context_history`
(gemini_processor.py:63-67). -/
structure CtxEntry where
  timestamp : Nat
  prompt : String
  response : String
deriving DecidableEq, Repr

/-- Python `f"{v}"` on an optional numeric: `None` renders as "None". -/
def pyShowOpt (v : Option Int) : String :=
  match v with
  | none => "None"
  | some x => toString x

/-- The fixed system preamble (gemini_processor.py:84-95). -/
def systemPrompt : String :=
  "You are an AI assistant helping someone with memory difficulties.\nYour job is to analyze their current location, surroundings, and activities to provide a clear,\nconcise summary of where they are and what\x27s happening around them.\n\nBe reassuring, specific, and helpful. Focus on:\n1. Current location and what\x27s at that location\n2. What activity they appear to be doing\n3. Any important context from recent history\n4. Anything they should be aware of\n\nKeep your response to 2-3 short paragraphs maximum. Be warm and supportive.\n"

/-- One movement-trail line (gemini_processor.py:110-112); the `:.6f`
formats raise on a `None` coordinate. -/
def trailLine (g : GpsFix) : Except String String := do
  let la ← pyF6 g.latitude
  let lo ← pyF6 g.longitude
  Except.ok ("  - " ++ (la ++ (", " ++ (lo ++ (" at " ++ toString g.timestamp)))))

/-- The for-loop over `data['gps_data'][-5:]` (gemini_processor.py:109-112),
appending one line per fix, stopping at the first raised exception. -/
def trailLines : List GpsFix → Except String (List String)
  | [] => Except.ok []
  | g :: gs =>
    match trailLine g with
    | Except.error e => Except.error e
    | Except.ok line =>
      match trailLines gs with
      | Except.error e => Except.error e
      | Except.ok rest => Except.ok (line :: rest)

/-- The four unconditional parts of the location section
(gemini_processor.py:101-104). -/
def gpsBase (latest : GpsFix) : List String :=
  ["\n--- CURRENT LOCATION ---",
   "Latitude: " ++ pyShowOpt latest.latitude,
   "Longitude: " ++ pyShowOpt latest.longitude,
   "Time: " ++ toString latest.timestamp]

/-- The location section of `prompt_parts` (gemini_processor.py:97-112):
present exactly when `gps_data` is non-empty (Python truthiness of the list
and of the `latest_gps` dict); the movement trail is added only when there is
more than one fix. -/
def gpsSection (gps : List GpsFix) : Except String (List String) :=
  match gps.getLast? with
  | none => Except.ok []
  | some latest =>
    if 1 < gps.length then
      match trailLines (lastN 5 gps) with
      | Except.error e => Except.error e
      | Except.ok trail =>
        Except.ok (gpsBase latest ++
          ("\nRecent locations (last " ++ (toString gps.length ++ " updates):"))
            :: trail)
    else Except.ok (gpsBase latest)

/-- The photos section of `prompt_parts` (gemini_processor.py:114-124):
present exactly when `photos` is non-empty. -/
def photoSection (photos : List PhotoMeta) : List String :=
  if photos = [] then []
  else
    ["\n--- PHOTOS CAPTURED ---",
     "Number of photos taken: " ++ toString photos.length,
     "Most recent photos:"] ++
    (lastN 3 photos).map
      (fun ph => "  - " ++ (ph.filename ++ (" at " ++ toString ph.timestamp))) ++
    ["\nNote: Photo analysis will be added in future updates. For now, provide general context based on location and time."]

/-- The audio section of `prompt_parts` (gemini_processor.py:126-132):
present exactly when the audio-chunk count is non-zero (int truthiness). -/
def audioSection (n : Nat) : List String :=
  if n = 0 then []
  else ["\n--- AUDIO DATA ---",
    "Audio chunks captured: " ++ toString n,
    "Note: Audio transcription will be added in future updates."]

/-- The recent-history section of `prompt_parts`
(gemini_processor.py:134-137): present when `context_history` is non-empty,
quoting the most recent response. -/
def historySection (hist : List CtxEntry) : List String :=
  match hist.getLast? with
  | none => []
  | some last =>
    ["\n--- RECENT HISTORY ---",
     "Previous state (for context): " ++ last.response]

/-- The final fixed instruction (gemini_processor.py:140-145). -/
def finalInstruction : String :=
  "\n--- YOUR TASK ---\nBased on all the above information, provide a clear, supportive summary of where the person is and what\x27s happening. If you can identify the location from coordinates, mention specific place names. Be specific and reassuring."

/-- `_build_state_prompt`'s `prompt_parts` list, in append order
(gemini_processor.py:78-145). -/
def build_state_prompt_parts (data : Snapshot) (hist : List CtxEntry) :
    Except String (List String) := do
  let g ← gpsSection data.gps_data
  Except.ok (systemPrompt :: g ++ photoSection data.photos ++
    audioSection data.audio_chunks ++ historySection hist ++ [finalInstruction])

/-- `_build_state_prompt` (gemini_processor.py:147): the parts joined with
newlines. -/
def build_state_prompt (data : Snapshot) (hist : List CtxEntry) :
    Except String String :=
  (build_state_prompt_parts data hist).map
    (fun ps => String.intercalate "\n" ps)

/-- Outcome of `self.model.generate_content(prompt)` followed by
`response.text`: the external model either yields a text or raises. -/
inductive ModelResult where
  | success (text : String)
  | failure (err : String)
deriving DecidableEq, Repr

/-- The history entry appended after a successful call
(gemini_processor.py:63-67): timestamp, prompt truncated to its first 200
characters plus an ellipsis, and the full response. -/
def mkCtxEntry (ts : Nat) (prompt text : String) : CtxEntry :=
  { timestamp := ts, prompt := prompt.take 200 ++ "...", response := text }

/-- The body of the `try` block of `GeminiProcessor.generate_state`
(gemini_processor.py:52-71): build the prompt, call the model, append the
trimmed history entry; an `Except.error` is an exception reaching the
enclosing handler. -/
def generate_state_try (model : ModelResult) (hist : List CtxEntry)
    (data : Snapshot) (now : Nat) : Except String (String × List CtxEntry) := do
  let prompt ← build_state_prompt data hist
  let text ← match model with
    | ModelResult.success t => Except.ok t
    | ModelResult.failure e => Except.error e
  Except.ok (text, trimTo 10 (hist ++ [mkCtxEntry now prompt text]))

/-- `GeminiProcessor.generate_state` (gemini_processor.py:39-76): any
exception from the body is caught and converted into an error-description
return value, leaving the history unchanged. Returns the state text and the
new history. -/
def generate_state (model : ModelResult) (hist : List CtxEntry)
    (data : Snapshot) (now : Nat) : String × List CtxEntry :=
  match generate_state_try model hist data now with
  | Except.ok r => r
  | Except.error e => ("Unable to generate state: " ++ e, hist)

/-- C3: `generate_state` never propagates an exception to its caller: a
failing model call yields an error-description text (with the history left
unchanged), and more generally every exception of the body is caught and
converted into an error-description return value. -/
theorem generate_state_never_raises (model : ModelResult)
    (hist : List CtxEntry) (data : Snapshot) (now : Nat) :
    (∀ e, model = ModelResult.failure e →
      ∃ msg, generate_state model hist data now =
        ("Unable to generate state: " ++ msg, hist)) ∧
    (∀ e, generate_state_try model hist data now = Except.error e →
      generate_state model hist data now =
        ("Unable to generate state: " ++ e, hist)) := by
  constructor
  · intro e he
    subst he
    unfold generate_state generate_state_try
    cases hb : build_state_prompt data hist with
    | error b => exact ⟨b, rfl⟩
    | ok p => exact ⟨e, rfl⟩
  · intro e he
    unfold generate_state
    rw [he]

/-- Witness for C3 at a concrete failing call. -/
theorem generate_state_never_raises_witness :
    ∃ msg, generate_state (ModelResult.failure "boom") [] ⟨[], [], 0⟩ 0 =
      ("Unable to generate state: " ++ msg, []) :=
  (generate_state_never_raises (ModelResult.failure "boom") [] ⟨[], [], 0⟩ 0).1
    "boom" rfl

/-- The history component of a successful-model call: appended and trimmed
when the prompt build succeeds, unchanged when it raises. -/
theorem generate_state_success_hist (t : String) (hist : List CtxEntry)
    (data : Snapshot) (now : Nat) :
    (generate_state (ModelResult.success t) hist data now).2 =
    (match build_state_prompt data hist with
     | Except.ok p => trimTo 10 (hist ++ [mkCtxEntry now p t])
     | Except.error _ => hist) := by
  unfold generate_state generate_state_try
  cases build_state_prompt data hist <;> rfl

/-- Observer running a sequence of summarizer calls (each bringing the
snapshot, the model's text and a timestamp) through `generate_state`,
returning the final history together with every entry appended on the way. -/
def genTrace : List (Snapshot × String × Nat) → List CtxEntry →
    List CtxEntry × List CtxEntry
  | [], hist => (hist, [])
  | (snap, text, ts) :: rest, hist =>
    let hist' := (generate_state (ModelResult.success text) hist snap ts).2
    let appended := match build_state_prompt snap hist with
      | Except.ok p => [mkCtxEntry ts p text]
      | Except.error _ => []
    let r := genTrace rest hist'
    (r.1, appended ++ r.2)

theorem genTrace_lastN (calls : List (Snapshot × String × Nat))
    (hist ys : List CtxEntry) (hacc : hist = lastN 10 ys) :
    (genTrace calls hist).1 = lastN 10 (ys ++ (genTrace calls hist).2) := by
  induction calls generalizing hist ys with
  | nil =>
    show hist = lastN 10 (ys ++ [])
    rw [List.append_nil]
    exact hacc
  | cons c rest ih =>
    obtain ⟨snap, text, ts⟩ := c
    show (genTrace rest _).1 = _
    rw [generate_state_success_hist]
    cases hb : build_state_prompt snap hist with
    | ok p =>
      have hstep : trimTo 10 (hist ++ [mkCtxEntry ts p text]) =
          lastN 10 (ys ++ [mkCtxEntry ts p text]) := by
        rw [hacc]; exact trim_append 10 (by omega) ys _
      have := ih _ _ hstep
      rw [this]
      have htr : (genTrace ((snap, text, ts) :: rest) hist).2 =
          [mkCtxEntry ts p text] ++
            (genTrace rest (trimTo 10 (hist ++ [mkCtxEntry ts p text]))).2 := by
        show (let hist' := (generate_state (ModelResult.success text) hist snap ts).2;
          let appended := match build_state_prompt snap hist with
            | Except.ok p => [mkCtxEntry ts p text]
            | Except.error _ => []
          let r := genTrace rest hist'
          (r.1, appended ++ r.2)).2 = _
        rw [generate_state_success_hist, hb]
      rw [htr, List.append_assoc]
    | error e =>
      have := ih hist ys hacc
      rw [this]
      have htr : (genTrace ((snap, text, ts) :: rest) hist).2 =
          [] ++ (genTrace rest hist).2 := by
        show (let hist' := (generate_state (ModelResult.success text) hist snap ts).2;
          let appended := match build_state_prompt snap hist with
            | Except.ok p => [mkCtxEntry ts p text]
            | Except.error _ => []
          let r := genTrace rest hist'
          (r.1, appended ++ r.2)).2 = _
        rw [generate_state_success_hist, hb]
      rw [htr]
      rfl

/-- C7: across any sequence of successful `generate_state` calls the rolling
context history never exceeds 10 entries and always consists of the most
recently appended entries (so the oldest is evicted first). -/
theorem context_history_capped (calls : List (Snapshot × String × Nat)) :
    (genTrace calls []).1.length ≤ 10 ∧
    (genTrace calls []).1 = lastN 10 (genTrace calls []).2 := by
  have h := genTrace_lastN calls [] [] rfl
  rw [List.nil_append] at h
  refine ⟨?_, h⟩
  rw [h, length_lastN]
  omega

/-- One line of the date-stamped state log (app.py:74-80). -/
structure LogEntry where
  timestamp : Nat
  state : String
  gps_count : Nat
  photo_count : Nat
  audio_chunks : Nat
deriving DecidableEq, Repr

/-- A `state_update` broadcast (app.py:87-90). -/
structure StateBroadcast where
  state : String
  timestamp : Nat
deriving DecidableEq, Repr

/-- Everything one periodic cycle produces. -/
structure CycleResult where
  session : Session
  ctx : List CtxEntry
  logs : List LogEntry
  broadcasts : List StateBroadcast
  console : List String
deriving DecidableEq, Repr

/-- One iteration of `background_state_updater` after the sleep
(app.py:57-95). The summarizer call itself never raises (it returns error
text), so the only genuinely fallible statement of the try block is the
append to the log file, whose outcome is `logWrite`; when it raises, the
except clause fires after `current_state`/`last_update` were already
overwritten, so that mutation is kept while the log line and the broadcast
are skipped. -/
def background_cycle (model : ModelResult) (logWrite : Except String Unit)
    (now : Nat) (s : Session) (hist : List CtxEntry) : CycleResult :=
  let snap : Snapshot := ⟨s.gps_data, s.photos, s.audio_chunks.length⟩
  let r := generate_state model hist snap now
  let s' := { s with current_state := r.1, last_update := now }
  match logWrite with
  | Except.error e =>
    ⟨s', r.2, [], [], ["[Error] State update failed: " ++ e]⟩
  | Except.ok _ =>
    ⟨s', r.2,
     [⟨now, r.1, snap.gps_data.length, snap.photos.length, snap.audio_chunks⟩],
     [⟨r.1, now⟩],
     ["[State Update] " ++ toString now ++ ": " ++ r.1.take 100 ++ "..."]⟩

/-- Counterexample to C1: in a cycle whose summarizer (model) call fails,
the session is not left unchanged, a broadcast is emitted and a log line is
appended — because `generate_state` converts the failure into an error text
that the cycle then installs as the new state. -/
theorem summarizer_failure_skips_cycle_cex :
    ¬ ((background_cycle (ModelResult.failure "boom") (Except.ok ()) 7
          initial_session []).session = initial_session ∧
       (background_cycle (ModelResult.failure "boom") (Except.ok ()) 7
          initial_session []).broadcasts = [] ∧
       (background_cycle (ModelResult.failure "boom") (Except.ok ()) 7
          initial_session []).logs = []) := by
  decide

/-- C1 amended: a cycle whose summarizer call fails is not skipped; the
cycle installs the error description as the new `current_state`, refreshes
`last_update`, appends one log line and emits one broadcast (the captured
data and the context history are untouched). -/
theorem summarizer_failure_proceeds (e : String) (now : Nat) (s : Session)
    (hist : List CtxEntry) :
    ∃ msg,
      (background_cycle (ModelResult.failure e) (Except.ok ()) now s hist).session =
        { s with current_state := "Unable to generate state: " ++ msg,
                 last_update := now } ∧
      (background_cycle (ModelResult.failure e) (Except.ok ()) now s hist).ctx =
        hist ∧
      (background_cycle (ModelResult.failure e) (Except.ok ()) now s hist).logs =
        [⟨now, "Unable to generate state: " ++ msg, s.gps_data.length,
          s.photos.length, s.audio_chunks.length⟩] ∧
      (background_cycle (ModelResult.failure e) (Except.ok ()) now s hist).broadcasts =
        [⟨"Unable to generate state: " ++ msg, now⟩] := by
  obtain ⟨msg, hm⟩ := (generate_state_never_raises (ModelResult.failure e) hist
    ⟨s.gps_data, s.photos, s.audio_chunks.length⟩ now).1 e rfl
  refine ⟨msg, ?_, ?_, ?_, ?_⟩ <;>
    simp only [background_cycle, hm]

/-- Witness for the amended C1 at a concrete failing cycle. -/
theorem summarizer_failure_proceeds_witness :
    ∃ msg,
      (background_cycle (ModelResult.failure "boom") (Except.ok ()) 7
          initial_session []).session =
        { initial_session with
            current_state := "Unable to generate state: " ++ msg,
            last_update := 7 } ∧
      (background_cycle (ModelResult.failure "boom") (Except.ok ()) 7
          initial_session []).ctx = [] ∧
      (background_cycle (ModelResult.failure "boom") (Except.ok ()) 7
          initial_session []).logs =
        [⟨7, "Unable to generate state: " ++ msg, 0, 0, 0⟩] ∧
      (background_cycle (ModelResult.failure "boom") (Except.ok ()) 7
          initial_session []).broadcasts =
        [⟨"Unable to generate state: " ++ msg, 7⟩] :=
  summarizer_failure_proceeds "boom" 7 initial_session []

/-- `Config.validate` (config.py:34-42): raises `ValueError` when the key is
falsy. (No caller in the repository invokes it; startup fails instead inside
`GeminiProcessor.__init__`.) -/
def Config.validate (gemini_api_key : String) : Except String Unit :=
  if gemini_api_key = "" then
    Except.error "GEMINI_API_KEY not found! Please create server/config.json with your API key or set GEMINI_API_KEY environment variable."
  else Except.ok ()

/-- A constructed `GeminiProcessor` (gemini_processor.py:16-37). -/
structure GeminiProcessor where
  model_name : String
  context_history : List CtxEntry
deriving DecidableEq, Repr

/-- `GeminiProcessor.__init__` (gemini_processor.py:16-37): raises
`ValueError` on a falsy (empty) key; otherwise picks a model through the
fallback chain, `ctorFails` saying which model constructors raise. -/
def geminiProcessorInit (api_key : String) (ctorFails : String → Bool) :
    Except String GeminiProcessor :=
  if api_key = "" then Except.error "Gemini API key is required"
  else if ctorFails "gemini-3-pro-preview-11-2025" = false then
    Except.ok ⟨"gemini-3-pro-preview-11-2025", []⟩
  else if ctorFails "gemini-2.0-flash-exp" = false then
    Except.ok ⟨"gemini-2.0-flash-exp", []⟩
  else if ctorFails "gemini-1.5-pro" = false then
    Except.ok ⟨"gemini-1.5-pro", []⟩
  else Except.error "could not construct gemini-1.5-pro"

/-- The state reached when the process is up and serving. -/
structure ServerState where
  processor : GeminiProcessor
  session : Session
deriving DecidableEq, Repr

/-- Module-level startup of app.py: the processor is constructed at import
time (app.py:24), before the session exists and before `socketio.run`
starts serving (app.py:254); an exception there aborts the process. -/
def server_startup (gemini_api_key : String) (ctorFails : String → Bool) :
    Except String ServerState := do
  let proc ← geminiProcessorInit gemini_api_key ctorFails
  Except.ok ⟨proc, initial_session⟩

/-- C9: with an empty API credential the process refuses to start — startup
raises the validation error before the server begins serving events. -/
theorem empty_key_refuses_start (ctorFails : String → Bool) :
    server_startup "" ctorFails = Except.error "Gemini API key is required" := by
  rfl

/-- Payload of an `audio_chunk` event; `none` models a missing `audio` key
(`data['audio']` then raises `KeyError`, app.py:170). -/
structure AudioPayload where
  audio : Option (List Char)
deriving DecidableEq, Repr

/-- Payload of a `photo_capture` event; `none` models a missing `image` key
(app.py:199). -/
structure PhotoPayload where
  image : Option (List Char)
deriving DecidableEq, Repr

/-- Socket replies of the photo handler (app.py:221 and 225). -/
inductive PhotoEmit where
  | photo_saved (filename : String) (timestamp : Nat)
  | photo_error (error : String)
deriving DecidableEq, Repr

/-- `f"audio_{timestamp.strftime('%Y%m%d_%H%M%S_%f')}.webm"` (app.py:166);
the strftime rendering of the abstract timestamp is modelled by toString. -/
def audioFilename (ts : Nat) : String := "audio_" ++ toString ts ++ ".webm"

/-- `f"photo_{timestamp.strftime('%Y%m%d_%H%M%S')}.jpg"` (app.py:194). -/
def photoFilename (ts : Nat) : String := "photo_" ++ toString ts ++ ".jpg"

/-- `PHOTO_DIR` (app.py:29). -/
def PHOTO_DIR : String := "data/photos"

/-- `os.path.join(PHOTO_DIR, photo_filename)` (app.py:195). -/
def photoPath (fn : String) : String := PHOTO_DIR ++ "/" ++ fn

/-- What `handle_audio_chunk` produces besides the session: file writes
(path content pairs) and console lines. -/
structure AudioResult where
  session : Session
  writes : List (String × List Nat)
  console : List String
deriving DecidableEq, Repr

/-- `handle_audio_chunk` (app.py:161-186). `b64` is the abstract
`base64.b64decode`; `none` models `binascii.Error`. Every exception is
caught and logged; on success exactly one file is written and one metadata
entry appended. -/
def handle_audio_chunk (b64 : List Char → Option (List Nat))
    (data : AudioPayload) (ts : Nat) (s : Session) : AudioResult :=
  match data.audio with
  | none => ⟨s, [], ["[Error] Audio chunk save failed: KeyError: audio"]⟩
  | some payload =>
    match b64 payload with
    | none =>
      ⟨s, [], ["[Error] Audio chunk save failed: Invalid base64-encoded string"]⟩
    | some bytes =>
      let fn := audioFilename ts
      ⟨{ s with audio_chunks := s.audio_chunks ++ [⟨ts, fn, bytes.length⟩] },
       [(fn, bytes)],
       ["[Audio Chunk] Saved " ++ fn ++ " (" ++ toString bytes.length
         ++ " bytes)"]⟩

/-- `str.split(',')` on a character list (the Python split used at
app.py:201). -/
def splitOnComma : List Char → List (List Char)
  | [] => [[]]
  | c :: rest =>
    if c = ',' then [] :: splitOnComma rest
    else
      match splitOnComma rest with
      | [] => [[c]]
      | g :: gs => (c :: g) :: gs

/-- The data-URL stripping of app.py:199-201:
`if ',' in image_data: image_data = image_data.split(',')[1]`. -/
def stripDataUrl (s : List Char) : List Char :=
  if ',' ∈ s then (splitOnComma s).getD 1 [] else s

/-- What `handle_photo_capture` produces besides the session. -/
structure PhotoResult where
  session : Session
  writes : List (String × List Nat)
  emits : List PhotoEmit
  console : List String
deriving DecidableEq, Repr

/-- `handle_photo_capture` (app.py:189-225): strip an optional data-URL
prefix, decode, write the file, append the metadata entry and acknowledge;
on any exception emit `photo_error` instead, with nothing written. -/
def handle_photo_capture (b64 : List Char → Option (List Nat))
    (data : PhotoPayload) (ts : Nat) (s : Session) : PhotoResult :=
  match data.image with
  | none =>
    ⟨s, [], [PhotoEmit.photo_error "KeyError: image"],
     ["[Error] Photo save failed: KeyError: image"]⟩
  | some img =>
    let image_data := stripDataUrl img
    match b64 image_data with
    | none =>
      ⟨s, [], [PhotoEmit.photo_error "Invalid base64-encoded string"],
       ["[Error] Photo save failed: Invalid base64-encoded string"]⟩
    | some bytes =>
      let fn := photoFilename ts
      ⟨{ s with photos := s.photos ++ [⟨ts, fn, photoPath fn, bytes.length⟩] },
       [(fn, bytes)],
       [PhotoEmit.photo_saved fn ts],
       ["[Photo Captured] " ++ fn ++ " (" ++ toString bytes.length
         ++ " bytes)"]⟩

/-- C4: a valid base64 payload makes each handler write exactly one file,
whose bytes are exactly the decoded payload, and append exactly one
metadata entry carrying that filename and byte size (the rest of the
session untouched). -/
theorem valid_payload_one_file_one_entry
    (b64 : List Char → Option (List Nat)) (ts : Nat) (s : Session) :
    (∀ d payload bytes, d.audio = some payload → b64 payload = some bytes →
      handle_audio_chunk b64 d ts s =
        ⟨{ s with audio_chunks :=
             s.audio_chunks ++ [⟨ts, audioFilename ts, bytes.length⟩] },
         [(audioFilename ts, bytes)],
         ["[Audio Chunk] Saved " ++ audioFilename ts ++ " ("
           ++ toString bytes.length ++ " bytes)"]⟩) ∧
    (∀ d img bytes, d.image = some img →
      b64 (stripDataUrl img) = some bytes →
      handle_photo_capture b64 d ts s =
        ⟨{ s with photos := s.photos ++
             [⟨ts, photoFilename ts, photoPath (photoFilename ts),
               bytes.length⟩] },
         [(photoFilename ts, bytes)],
         [PhotoEmit.photo_saved (photoFilename ts) ts],
         ["[Photo Captured] " ++ photoFilename ts ++ " ("
           ++ toString bytes.length ++ " bytes)"]⟩) := by
  constructor
  · intro d payload bytes hd hb
    simp [handle_audio_chunk, hd, hb]
  · intro d img bytes hd hb
    simp [handle_photo_capture, hd, hb]

/-- Witness for C4 on concrete payloads and a concrete decoder. -/
theorem valid_payload_one_file_one_entry_witness :
    handle_audio_chunk (fun _ => some [1, 2, 3]) ⟨some ['Q']⟩ 5
        initial_session =
      ⟨{ initial_session with audio_chunks :=
           [⟨5, audioFilename 5, 3⟩] },
       [(audioFilename 5, [1, 2, 3])],
       ["[Audio Chunk] Saved " ++ audioFilename 5 ++ " (3 bytes)"]⟩ := by
  have h := (valid_payload_one_file_one_entry
    (fun _ => some [1, 2, 3]) 5 initial_session).1
    ⟨some ['Q']⟩ ['Q'] [1, 2, 3] rfl rfl
  simpa [initial_session] using h

/-- C5: a payload whose base64 fails to decode leaves the session and the
disk untouched in both handlers; the failure is logged (and, for photos,
reported to the client) and never raised out of the handler. -/
theorem malformed_payload_drops_event
    (b64 : List Char → Option (List Nat)) (ts : Nat) (s : Session) :
    (∀ d payload, d.audio = some payload → b64 payload = none →
      handle_audio_chunk b64 d ts s =
        ⟨s, [],
         ["[Error] Audio chunk save failed: Invalid base64-encoded string"]⟩) ∧
    (∀ d img, d.image = some img → b64 (stripDataUrl img) = none →
      handle_photo_capture b64 d ts s =
        ⟨s, [], [PhotoEmit.photo_error "Invalid base64-encoded string"],
         ["[Error] Photo save failed: Invalid base64-encoded string"]⟩) := by
  constructor
  · intro d payload hd hb
    simp [handle_audio_chunk, hd, hb]
  · intro d img hd hb
    simp [handle_photo_capture, hd, hb]

/-- Witness for C5 with a decoder that rejects everything. -/
theorem malformed_payload_drops_event_witness :
    handle_photo_capture (fun _ => none) ⟨some ['Q']⟩ 5 initial_session =
      ⟨initial_session, [],
       [PhotoEmit.photo_error "Invalid base64-encoded string"],
       ["[Error] Photo save failed: Invalid base64-encoded string"]⟩ :=
  (malformed_payload_drops_event (fun _ => none) 5 initial_session).2
    ⟨some ['Q']⟩ ['Q'] rfl rfl

theorem splitOnComma_no_comma {s : List Char} (h : ',' ∉ s) :
    splitOnComma s = [s] := by
  induction s with
  | nil => rfl
  | cons c rest ih =>
    have hc : c ≠ ',' := fun e => h (by simp [e])
    have hr : ',' ∉ rest := fun e => h (List.mem_cons_of_mem _ e)
    unfold splitOnComma
    rw [if_neg hc, ih hr]

theorem splitOnComma_append {p d : List Char} (hp : ',' ∉ p) :
    splitOnComma (p ++ ',' :: d) = p :: splitOnComma d := by
  induction p with
  | nil => simp [splitOnComma]
  | cons c rest ih =>
    have hc : c ≠ ',' := fun e => hp (by simp [e])
    have hr : ',' ∉ rest := fun e => hp (List.mem_cons_of_mem _ e)
    have h1 : splitOnComma (c :: (rest ++ ',' :: d)) =
        match splitOnComma (rest ++ ',' :: d) with
        | [] => [[c]]
        | g :: gs => (c :: g) :: gs := by
      simp only [splitOnComma]
      rw [if_neg hc]
    rw [List.cons_append, h1, ih hr]

theorem stripDataUrl_strips {p d : List Char} (hp : ',' ∉ p)
    (hd : ',' ∉ d) : stripDataUrl (p ++ ',' :: d) = d := by
  unfold stripDataUrl
  rw [if_pos (by simp), splitOnComma_append hp, splitOnComma_no_comma hd]
  rfl

theorem stripDataUrl_id {d : List Char} (hd : ',' ∉ d) :
    stripDataUrl d = d := by
  unfold stripDataUrl
  rw [if_neg hd]

/-- C6: a `photo_capture` whose payload carries a data-URL prefix (any
comma-free prefix before the comma, e.g. `data:image/jpeg;base64`) is
processed exactly like the bare base64 payload: same decoded bytes, same
file write, same metadata, same acknowledgement. -/
theorem data_url_invariance (b64 : List Char → Option (List Nat))
    (p d : List Char) (ts : Nat) (s : Session)
    (hp : ',' ∉ p) (hd : ',' ∉ d) :
    handle_photo_capture b64 ⟨some (p ++ ',' :: d)⟩ ts s =
      handle_photo_capture b64 ⟨some d⟩ ts s := by
  show (let image_data := stripDataUrl (p ++ ',' :: d); _) = _
  simp only [handle_photo_capture, stripDataUrl_strips hp hd,
    stripDataUrl_id hd]

/-- Witness for C6 with the literal `data:image/jpeg;base64` prefix. -/
theorem data_url_invariance_witness :
    handle_photo_capture (fun _ => some [65, 66])
        ⟨some ("data:image/jpeg;base64".data ++ ',' :: "QUJD".data)⟩ 5
        initial_session =
      handle_photo_capture (fun _ => some [65, 66]) ⟨some "QUJD".data⟩ 5
        initial_session :=
  data_url_invariance (fun _ => some [65, 66]) "data:image/jpeg;base64".data
    "QUJD".data 5 initial_session (by decide) (by decide)

/-- C10: a `gps_update` whose latitude or longitude is absent still appends
the fix (with those fields null) before the formatted print faults; the
fault is caught after the append, so the mutation survives, the event is
not dropped, and the handler returns normally with an error log line. -/
theorem gps_null_appended_then_fault (d : GpsPayload) (ts : Nat)
    (s : Session) (h : d.latitude = none ∨ d.longitude = none) :
    (handle_gps_update d ts s).1 =
      { s with gps_data := trimTo 100 (s.gps_data ++ [mkGpsEntry d ts]) } ∧
    (handle_gps_update d ts s).2 =
      ["[Error] GPS update failed: unsupported format string passed to NoneType.__format__"] := by
  refine ⟨handle_gps_update_session d ts s, ?_⟩
  rcases h with h | h
  · simp only [handle_gps_update, mkGpsEntry, gpsPrintLine, pyF6, h]
    rfl
  · cases hl : d.latitude with
    | none =>
      simp only [handle_gps_update, mkGpsEntry, gpsPrintLine, pyF6, hl]
      rfl
    | some x =>
      simp only [handle_gps_update, mkGpsEntry, gpsPrintLine, pyF6, hl, h]
      rfl

/-- A concrete `gps_update` payload with a null latitude. -/
def nullLatPayload : GpsPayload := ⟨none, some 2, none, none, none, none⟩

/-- Witness for C10: a fix with a null latitude. -/
theorem gps_null_appended_then_fault_witness :
    (handle_gps_update nullLatPayload 5 initial_session).1 =
      { initial_session with gps_data := trimTo 100 (initial_session.gps_data ++ [mkGpsEntry nullLatPayload 5]) } ∧
    (handle_gps_update nullLatPayload 5 initial_session).2 =
      ["[Error] GPS update failed: unsupported format string passed to NoneType.__format__"] :=
  gps_null_appended_then_fault nullLatPayload 5 initial_session (Or.inl rfl)

theorem append_ne_of_take (k : Nat) (a s b : String)
    (hk : k ≤ a.data.length) (h : a.data.take k ≠ b.data.take k) :
    a ++ s ≠ b := by
  intro e
  apply h
  have hd : (a ++ s).data = a.data ++ s.data := rfl
  rw [← e, hd, List.take_append_of_le_length hk]

theorem trailLine_ok_shape {g : GpsFix} {x : String}
    (h : trailLine g = Except.ok x) : ∃ s, x = "  - " ++ s := by
  unfold trailLine at h
  cases hla : pyF6 g.latitude with
  | error e => rw [hla] at h; exact Except.noConfusion h
  | ok la =>
    rw [hla] at h
    cases hlo : pyF6 g.longitude with
    | error e => rw [hlo] at h; exact Except.noConfusion h
    | ok lo =>
      rw [hlo] at h
      exact ⟨_, (Except.ok.inj h).symm⟩

theorem trailLines_shape {l : List GpsFix} {r : List String}
    (h : trailLines l = Except.ok r) : ∀ x ∈ r, ∃ s, x = "  - " ++ s := by
  induction l generalizing r with
  | nil =>
    have hr : ([] : List String) = r := Except.ok.inj h
    subst hr
    intro x hx
    exact absurd hx (List.not_mem_nil x)
  | cons g gs ih =>
    rw [trailLines] at h
    cases ht : trailLine g with
    | error e => rw [ht] at h; exact Except.noConfusion h
    | ok line =>
      rw [ht] at h
      cases hrest : trailLines gs with
      | error e => rw [hrest] at h; exact Except.noConfusion h
      | ok rest =>
        rw [hrest] at h
        have hr : line :: rest = r := Except.ok.inj h
        subst hr
        intro x hx
        rcases List.mem_cons.mp hx with hx | hx
        · subst hx; exact trailLine_ok_shape ht
        · exact ih hrest x hx

theorem gpsBase_shape (latest : GpsFix) :
    ∀ x ∈ gpsBase latest, x = "\n--- CURRENT LOCATION ---" ∨
      (∃ s, x = "Latitude: " ++ s) ∨ (∃ s, x = "Longitude: " ++ s) ∨
      (∃ s, x = "Time: " ++ s) := by
  intro x hx
  simp only [gpsBase, List.mem_cons, List.not_mem_nil, or_false] at hx
  rcases hx with h | h | h | h
  · exact Or.inl h
  · exact Or.inr (Or.inl ⟨_, h⟩)
  · exact Or.inr (Or.inr (Or.inl ⟨_, h⟩))
  · exact Or.inr (Or.inr (Or.inr ⟨_, h⟩))

theorem gpsSection_ok_cases {gps : List GpsFix} {g : List String}
    (h : gpsSection gps = Except.ok g) :
    (gps = [] ∧ g = []) ∨
    (gps ≠ [] ∧ "\n--- CURRENT LOCATION ---" ∈ g ∧
      ∀ x ∈ g, x = "\n--- CURRENT LOCATION ---" ∨
        (∃ s, x = "Latitude: " ++ s) ∨ (∃ s, x = "Longitude: " ++ s) ∨
        (∃ s, x = "Time: " ++ s) ∨
        (∃ s, x = "\nRecent locations (last " ++ s) ∨
        (∃ s, x = "  - " ++ s)) := by
  unfold gpsSection at h
  cases hl : gps.getLast? with
  | none =>
    rw [hl] at h
    exact Or.inl ⟨List.getLast?_eq_none_iff.mp hl, (Except.ok.inj h).symm⟩
  | some latest =>
    simp only [hl] at h
    have hne : gps ≠ [] := by
      intro h0; subst h0; simp at hl
    by_cases hlen : 1 < gps.length
    · rw [if_pos hlen] at h
      cases htr : trailLines (lastN 5 gps) with
      | error e => rw [htr] at h; exact Except.noConfusion h
      | ok trail =>
        rw [htr] at h
        have hg := Except.ok.inj h
        subst hg
        refine Or.inr ⟨hne, by simp [gpsBase], ?_⟩
        intro x hx
        rcases List.mem_append.mp hx with hx | hx
        · rcases gpsBase_shape latest x hx with h' | h' | h' | h'
          · exact Or.inl h'
          · exact Or.inr (Or.inl h')
          · exact Or.inr (Or.inr (Or.inl h'))
          · exact Or.inr (Or.inr (Or.inr (Or.inl h')))
        · rcases List.mem_cons.mp hx with hx | hx
          · exact Or.inr (Or.inr (Or.inr (Or.inr (Or.inl ⟨_, hx⟩))))
          · exact Or.inr (Or.inr (Or.inr (Or.inr (Or.inr
              (trailLines_shape htr x hx)))))
    · rw [if_neg hlen] at h
      have hg := Except.ok.inj h
      subst hg
      refine Or.inr ⟨hne, by simp [gpsBase], ?_⟩
      intro x hx
      rcases gpsBase_shape latest x hx with h' | h' | h' | h'
      · exact Or.inl h'
      · exact Or.inr (Or.inl h')
      · exact Or.inr (Or.inr (Or.inl h'))
      · exact Or.inr (Or.inr (Or.inr (Or.inl h')))

theorem notin_photoSection_aux (photos : List PhotoMeta) (x : String)
    (h1 : x ≠ "\n--- PHOTOS CAPTURED ---")
    (h2 : ∀ s, x ≠ "Number of photos taken: " ++ s)
    (h3 : x ≠ "Most recent photos:")
    (h4 : ∀ s, x ≠ "  - " ++ s)
    (h5 : x ≠ "\nNote: Photo analysis will be added in future updates. For now, provide general context based on location and time.") :
    x ∉ photoSection photos := by
  intro hmem
  unfold photoSection at hmem
  by_cases hp : photos = []
  · rw [if_pos hp] at hmem
    exact List.not_mem_nil x hmem
  · rw [if_neg hp] at hmem
    rcases List.mem_append.mp hmem with hx | hx
    · rcases List.mem_append.mp hx with hx | hx
      · simp only [List.mem_cons, List.not_mem_nil, or_false] at hx
        rcases hx with h' | h' | h'
        exacts [h1 h', h2 _ h', h3 h']
      · simp only [List.mem_map] at hx
        rcases hx with ⟨ph, _, h'⟩
        exact h4 _ h'.symm
    · simp only [List.mem_cons, List.not_mem_nil, or_false] at hx
      exact h5 hx

theorem notin_audioSection_aux (n : Nat) (x : String)
    (h1 : x ≠ "\n--- AUDIO DATA ---")
    (h2 : ∀ s, x ≠ "Audio chunks captured: " ++ s)
    (h3 : x ≠ "Note: Audio transcription will be added in future updates.") :
    x ∉ audioSection n := by
  intro hmem
  unfold audioSection at hmem
  by_cases hn : n = 0
  · rw [if_pos hn] at hmem
    exact List.not_mem_nil x hmem
  · rw [if_neg hn] at hmem
    simp only [List.mem_cons, List.not_mem_nil, or_false] at hmem
    rcases hmem with h' | h' | h'
    exacts [h1 h', h2 _ h', h3 h']

theorem notin_historySection_aux (hist : List CtxEntry) (x : String)
    (h1 : x ≠ "\n--- RECENT HISTORY ---")
    (h2 : ∀ s, x ≠ "Previous state (for context): " ++ s) :
    x ∉ historySection hist := by
  intro hmem
  unfold historySection at hmem
  cases hl : hist.getLast? with
  | none => simp [hl] at hmem
  | some last =>
    simp only [hl, List.mem_cons, List.not_mem_nil, or_false] at hmem
    rcases hmem with h' | h'
    exacts [h1 h', h2 _ h']

theorem notin_gpsSection_aux {gps : List GpsFix} {g : List String}
    (h : gpsSection gps = Except.ok g) (x : String)
    (h1 : x ≠ "\n--- CURRENT LOCATION ---")
    (h2 : ∀ s, x ≠ "Latitude: " ++ s)
    (h3 : ∀ s, x ≠ "Longitude: " ++ s)
    (h4 : ∀ s, x ≠ "Time: " ++ s)
    (h5 : ∀ s, x ≠ "\nRecent locations (last " ++ s)
    (h6 : ∀ s, x ≠ "  - " ++ s) : x ∉ g := by
  intro hmem
  rcases gpsSection_ok_cases h with ⟨_, hg⟩ | ⟨_, _, hshape⟩
  · subst hg
    exact List.not_mem_nil x hmem
  · rcases hshape x hmem with h' | ⟨s, h'⟩ | ⟨s, h'⟩ | ⟨s, h'⟩ | ⟨s, h'⟩ | ⟨s, h'⟩
    exacts [h1 h', h2 s h', h3 s h', h4 s h', h5 s h', h6 s h']

theorem loc_notin_photoSection (photos : List PhotoMeta) :
    "\n--- CURRENT LOCATION ---" ∉ photoSection photos :=
  notin_photoSection_aux photos _ (by decide)
    (fun s => (append_ne_of_take 1 _ s _ (by decide) (by decide)).symm)
    (by decide)
    (fun s => (append_ne_of_take 1 _ s _ (by decide) (by decide)).symm)
    (by decide)

theorem audio_notin_photoSection (photos : List PhotoMeta) :
    "\n--- AUDIO DATA ---" ∉ photoSection photos :=
  notin_photoSection_aux photos _ (by decide)
    (fun s => (append_ne_of_take 1 _ s _ (by decide) (by decide)).symm)
    (by decide)
    (fun s => (append_ne_of_take 1 _ s _ (by decide) (by decide)).symm)
    (by decide)

theorem loc_notin_audioSection (n : Nat) :
    "\n--- CURRENT LOCATION ---" ∉ audioSection n :=
  notin_audioSection_aux n _ (by decide)
    (fun s => (append_ne_of_take 1 _ s _ (by decide) (by decide)).symm)
    (by decide)

theorem photo_notin_audioSection (n : Nat) :
    "\n--- PHOTOS CAPTURED ---" ∉ audioSection n :=
  notin_audioSection_aux n _ (by decide)
    (fun s => (append_ne_of_take 1 _ s _ (by decide) (by decide)).symm)
    (by decide)

theorem loc_notin_historySection (hist : List CtxEntry) :
    "\n--- CURRENT LOCATION ---" ∉ historySection hist :=
  notin_historySection_aux hist _ (by decide)
    (fun s => (append_ne_of_take 1 _ s _ (by decide) (by decide)).symm)

theorem photo_notin_historySection (hist : List CtxEntry) :
    "\n--- PHOTOS CAPTURED ---" ∉ historySection hist :=
  notin_historySection_aux hist _ (by decide)
    (fun s => (append_ne_of_take 1 _ s _ (by decide) (by decide)).symm)

theorem audio_notin_historySection (hist : List CtxEntry) :
    "\n--- AUDIO DATA ---" ∉ historySection hist :=
  notin_historySection_aux hist _ (by decide)
    (fun s => (append_ne_of_take 1 _ s _ (by decide) (by decide)).symm)

theorem photo_notin_gpsSection {gps : List GpsFix} {g : List String}
    (h : gpsSection gps = Except.ok g) :
    "\n--- PHOTOS CAPTURED ---" ∉ g :=
  notin_gpsSection_aux h _ (by decide)
    (fun s => (append_ne_of_take 1 _ s _ (by decide) (by decide)).symm)
    (fun s => (append_ne_of_take 1 _ s _ (by decide) (by decide)).symm)
    (fun s => (append_ne_of_take 1 _ s _ (by decide) (by decide)).symm)
    (fun s => (append_ne_of_take 6 _ s _ (by decide) (by decide)).symm)
    (fun s => (append_ne_of_take 1 _ s _ (by decide) (by decide)).symm)

theorem audio_notin_gpsSection {gps : List GpsFix} {g : List String}
    (h : gpsSection gps = Except.ok g) :
    "\n--- AUDIO DATA ---" ∉ g :=
  notin_gpsSection_aux h _ (by decide)
    (fun s => (append_ne_of_take 1 _ s _ (by decide) (by decide)).symm)
    (fun s => (append_ne_of_take 1 _ s _ (by decide) (by decide)).symm)
    (fun s => (append_ne_of_take 1 _ s _ (by decide) (by decide)).symm)
    (fun s => (append_ne_of_take 6 _ s _ (by decide) (by decide)).symm)
    (fun s => (append_ne_of_take 1 _ s _ (by decide) (by decide)).symm)

theorem photoHeader_mem_photoSection {photos : List PhotoMeta}
    (hp : photos ≠ []) :
    "\n--- PHOTOS CAPTURED ---" ∈ photoSection photos := by
  unfold photoSection
  rw [if_neg hp]
  simp

theorem audioHeader_mem_audioSection {n : Nat} (hn : n ≠ 0) :
    "\n--- AUDIO DATA ---" ∈ audioSection n := by
  unfold audioSection
  rw [if_neg hn]
  simp

/-- C8: the prompt parts built by the summarizer omit the location section
exactly when `gpsHistory` is empty and the photos section exactly when
`photoIndex` is empty, the two being independent of each other, while the
audio-count section appears exactly when the audio count is non-zero; with
an empty `gpsHistory` the build always succeeds. -/
theorem prompt_sections_independent (gps : List GpsFix)
    (photos : List PhotoMeta) (audio : Nat) (hist : List CtxEntry) :
    (gps = [] →
      ∃ p, build_state_prompt_parts ⟨gps, photos, audio⟩ hist = Except.ok p) ∧
    (∀ p, build_state_prompt_parts ⟨gps, photos, audio⟩ hist = Except.ok p →
      (("\n--- CURRENT LOCATION ---" ∈ p ↔ gps ≠ []) ∧
       ("\n--- PHOTOS CAPTURED ---" ∈ p ↔ photos ≠ []) ∧
       ("\n--- AUDIO DATA ---" ∈ p ↔ audio ≠ 0))) := by
  constructor
  · intro h0
    subst h0
    exact ⟨_, rfl⟩
  · intro p hb
    unfold build_state_prompt_parts at hb
    cases hg : gpsSection gps with
    | error e =>
      rw [hg] at hb
      exact Except.noConfusion hb
    | ok g =>
      rw [hg] at hb
      have hp2 := Except.ok.inj hb
      subst hp2
      have hsplit : ∀ x : String,
          x ∈ systemPrompt :: g ++ photoSection photos ++
              audioSection audio ++ historySection hist ++ [finalInstruction] ↔
          (x = systemPrompt ∨ x ∈ g ∨ x ∈ photoSection photos ∨
           x ∈ audioSection audio ∨ x ∈ historySection hist ∨
           x = finalInstruction) := by
        intro x
        simp [List.mem_cons, List.mem_append, or_assoc]
      refine ⟨?_, ?_, ?_⟩
      · constructor
        · intro hm
          rcases (hsplit _).mp hm with h' | h' | h' | h' | h' | h'
          · exact absurd h' (by decide)
          · rcases gpsSection_ok_cases hg with ⟨_, hgnil⟩ | ⟨hne, _, _⟩
            · subst hgnil
              exact absurd h' (List.not_mem_nil _)
            · exact hne
          · exact absurd h' (loc_notin_photoSection photos)
          · exact absurd h' (loc_notin_audioSection audio)
          · exact absurd h' (loc_notin_historySection hist)
          · exact absurd h' (by decide)
        · intro hne
          rcases gpsSection_ok_cases hg with ⟨hnil, _⟩ | ⟨_, hmem, _⟩
          · exact absurd hnil hne
          · exact (hsplit _).mpr (Or.inr (Or.inl hmem))
      · constructor
        · intro hm
          rcases (hsplit _).mp hm with h' | h' | h' | h' | h' | h'
          · exact absurd h' (by decide)
          · exact absurd h' (photo_notin_gpsSection hg)
          · intro h0
            subst h0
            simp [photoSection] at h'
          · exact absurd h' (photo_notin_audioSection audio)
          · exact absurd h' (photo_notin_historySection hist)
          · exact absurd h' (by decide)
        · intro hne
          exact (hsplit _).mpr
            (Or.inr (Or.inr (Or.inl (photoHeader_mem_photoSection hne))))
      · constructor
        · intro hm
          rcases (hsplit _).mp hm with h' | h' | h' | h' | h' | h'
          · exact absurd h' (by decide)
          · exact absurd h' (audio_notin_gpsSection hg)
          · exact absurd h' (audio_notin_photoSection photos)
          · intro h0
            subst h0
            simp [audioSection] at h'
          · exact absurd h' (audio_notin_historySection hist)
          · exact absurd h' (by decide)
        · intro hne
          exact (hsplit _).mpr
            (Or.inr (Or.inr (Or.inr (Or.inl (audioHeader_mem_audioSection hne)))))

/-- The prompt parts of a snapshot with no fixes, no photos and one audio
chunk. -/
def partsNoData : List String :=
  match build_state_prompt_parts ⟨[], [], 1⟩ [] with
  | Except.ok p => p
  | Except.error _ => []

/-- Witness for C8: with empty `gpsHistory` and empty `photoIndex` and a
non-zero audio count, the built parts carry the audio section and neither
the location nor the photos section. -/
theorem prompt_sections_independent_witness :
    "\n--- AUDIO DATA ---" ∈ partsNoData ∧
    "\n--- CURRENT LOCATION ---" ∉ partsNoData ∧
    "\n--- PHOTOS CAPTURED ---" ∉ partsNoData := by
  have h := (prompt_sections_independent [] [] 1 []).2 partsNoData rfl
  exact ⟨h.2.2.mpr (by decide), fun hm => (h.1.mp hm) rfl,
    fun hm => (h.2.1.mp hm) rfl⟩

end Rememory
